import Mathlib

/-!
Shallow embedding of the spotipy-local client library.

Source files embedded:
  - src/src/spotify_local/core.py      (class SpotifyLocal, the synchronous client)
  - src/spotify_local/update_status.py (class UpdateStatus, the status poller)
  - the Event dispatcher class of event.py is not present under the sources and is
    modelled from the spec (see the doc comment on Event below).

Modelling conventions:
  - Decoded JSON documents are values of the inductive type Json.
  - An outbound HTTP GET is a Request record (url, query parameters, headers).
    The environment is an oracle function from Request to a response; randomness
    in url generation (the ten random lowercase letters of the subdomain) is an
    explicit argument named sub.
  - Python exceptions are Except / Option error components; methods that issue
    requests also return the list of requests they issued, in order, so that
    claims about what was sent on each path are statable.
  - Mutation of self is explicit state passing: each method returns the
    post-state where a claim needs it.  The methods of SpotifyLocal embedded
    here assign no field except in connect, which is transcribed with its
    partial-assignment behaviour on the error paths.
-/

/-- A decoded JSON document (the result of r.json() in the source). -/
inductive Json where
  | null : Json
  | bool (b : Bool) : Json
  | num (n : Int) : Json
  | str (s : String) : Json
  | arr (elems : List Json) : Json
  | obj (fields : List (String × Json)) : Json

/-- Reading a string field of a JSON object, as Python j[key] restricted to the
string-typed case declared by the source annotations (both token getters are
annotated -> str).  none models the KeyError / shape mismatch exception path. -/
def Json.getStr (j : Json) (key : String) : Option String :=
  match j with
  | Json.obj fields =>
      match fields.lookup key with
      | some (Json.str s) => some s
      | _ => none
  | _ => none

/-- One outbound HTTP GET, as issued by requests.Session.get in the source:
the url, the query parameters passed as params, and the headers passed as
headers (only the explicitly passed headers are recorded; the session default
headers of the requests library contain no Origin header). -/
structure Request where
  url : String
  params : List (String × String)
  headers : List (String × String)
deriving DecidableEq, Repr

/-- core.py line 24: DEFAULT_ORIGIN = ("Origin", "https://open.spotify.com"). -/
def DEFAULT_ORIGIN : List (String × String) := [("Origin", "https://open.spotify.com")]

/-- core.py line 25: DEFAULT_PORT = 4381. -/
def DEFAULT_PORT : Nat := 4381

/-- core.py get_url (lines 28 to 34).  The ten random lowercase letters are the
explicit argument sub. -/
def get_url (sub : String) (url : String) : String :=
  "http://" ++ sub ++ ".spotilocal.com:" ++ toString DEFAULT_PORT ++ url

/-- Errors raised by the embedded client: ConnectionError with its message
(core.py lines 200 to 207), and the decode / key errors of r.json()[k]
(the carried string names the missing key). -/
inductive SpotifyError where
  | connectionError (msg : String) : SpotifyError
  | decodeError (key : String) : SpotifyError
deriving DecidableEq, Repr

/-- The message of the ConnectionError raised by _check_if_connected. -/
def notConnectedMsg : String :=
  "Please either use with context, or call SpotifyLocal.connect() before calling this method."

/-- Modelled from the spec: the Event dispatcher class of event.py, which is
imported by core.py and update_status.py but is not present under the sources.
Per the spec it is a mutable ordered collection of callback functions that
supports registration via an addition operator and invocation, calling every
registered callback with one argument, in registration order.  H is the type
of callback references. -/
structure Event (H : Type) where
  handlers : List H

/-- Modelled from the spec: a fresh dispatcher holds no callbacks. -/
def Event.empty (H : Type) : Event H := { handlers := [] }

/-- Modelled from the spec: registration appends the callback at the end,
preserving registration order. -/
def Event.add {H : Type} (e : Event H) (h : H) : Event H :=
  { handlers := e.handlers ++ [h] }

/-- Modelled from the spec: invocation calls every registered callback once, in
registration order, each with the single payload argument.  The returned list
records the invocations performed, in order: one pair per callback called. -/
def Event.call {H : Type} (e : Event H) (payload : Json) : List (H × Json) :=
  e.handlers.map (fun h => (h, payload))

/-- The session state of class SpotifyLocal (core.py lines 151 to 171):
_origin, _connected, _oauth_token, _csrf_token.  The Python __init__ leaves the
two token slots unassigned; they are modelled as the empty string, which no
claim reads before connect assigns them. -/
structure SpotifyLocal where
  origin : List (String × String)
  connected : Bool
  oauth_token : String
  csrf_token : String
deriving DecidableEq, Repr

/-- SpotifyLocal.__init__ (core.py lines 164 to 171). -/
def SpotifyLocal.init : SpotifyLocal :=
  { origin := DEFAULT_ORIGIN, connected := false, oauth_token := "", csrf_token := "" }

/-- SpotifyLocal._check_if_connected (core.py lines 200 to 207): asserts
_connected == True and converts the AssertionError into a ConnectionError. -/
def SpotifyLocal.check_if_connected (self : SpotifyLocal) : Except SpotifyError Unit :=
  if self.connected = true then Except.ok ()
  else Except.error (SpotifyError.connectionError notConnectedMsg)

/-- SpotifyLocal._request (core.py lines 181 to 186): a GET on the session with
the given url and params and headers=self._origin. -/
def SpotifyLocal.request (self : SpotifyLocal) (url : String)
    (params : List (String × String)) : Request :=
  { url := url, params := params, headers := self.origin }

/-- The url used by SpotifyLocal._get_oauth_token (core.py line 190):
self._origin["Origin"] followed by /token. -/
def SpotifyLocal.oauth_token_url (self : SpotifyLocal) : String :=
  ((self.origin.lookup "Origin").getD "") ++ "/token"

/-- The request issued by SpotifyLocal._get_oauth_token (core.py line 191):
self._session.get(url=url), which passes no headers argument, so no Origin
header is attached to this request. -/
def SpotifyLocal.oauth_token_request (self : SpotifyLocal) : Request :=
  { url := self.oauth_token_url, params := [], headers := [] }

/-- The outcome of SpotifyLocal.connect: the requests issued in order, the
resulting session state, and the error if one was raised. -/
structure ConnectResult where
  requests : List Request
  state : SpotifyLocal
  err : Option SpotifyError

/-- SpotifyLocal.connect (core.py lines 209 to 213), inlining _get_oauth_token
(lines 188 to 192) and _get_csrf_token (lines 194 to 198):
first fetch r.json()["t"] from the origin token endpoint and assign it to
_oauth_token, then fetch r.json()["token"] from the simplecsrf endpoint via
_request and assign it to _csrf_token, then set _connected = True.
An exception on the first fetch leaves the state unchanged; an exception on the
second fetch leaves _oauth_token assigned but _connected still False. -/
def SpotifyLocal.connect (self : SpotifyLocal) (sub : String)
    (respond : Request → Json) : ConnectResult :=
  let req1 := self.oauth_token_request
  match (respond req1).getStr "t" with
  | none => { requests := [req1], state := self, err := some (SpotifyError.decodeError "t") }
  | some t =>
      let self1 : SpotifyLocal := { self with oauth_token := t }
      let req2 := self1.request (get_url sub "/simplecsrf/token.json") []
      match (respond req2).getStr "token" with
      | none =>
          { requests := [req1, req2], state := self1,
            err := some (SpotifyError.decodeError "token") }
      | some c =>
          { requests := [req1, req2],
            state := { self1 with csrf_token := c, connected := true },
            err := none }

/-- The outcome of one control call: the requests it issued, in order, and
either the raised error or the post-state paired with the returned value. -/
structure CallResult (A : Type) where
  requests : List Request
  result : Except SpotifyError (SpotifyLocal × A)

/-- SpotifyLocal.version (core.py lines 222 to 228): issues its GET and returns
the decoded body with no connectivity check. -/
def SpotifyLocal.version (self : SpotifyLocal) (sub : String)
    (respond : Request → Json) : CallResult Json :=
  let url := get_url sub "/service/version.json"
  let params := [("service", "remote")]
  let req := self.request url params
  { requests := [req], result := Except.ok (self, respond req) }

/-- SpotifyLocal.get_current_status (core.py lines 230 to 236):
_check_if_connected first, then one GET with the two tokens as parameters,
returning the decoded body. -/
def SpotifyLocal.get_current_status (self : SpotifyLocal) (sub : String)
    (respond : Request → Json) : CallResult Json :=
  match self.check_if_connected with
  | Except.error e => { requests := [], result := Except.error e }
  | Except.ok _ =>
      let url := get_url sub "/remote/status.json"
      let params := [("oauth", self.oauth_token), ("csrf", self.csrf_token)]
      let req := self.request url params
      { requests := [req], result := Except.ok (self, respond req) }

/-- SpotifyLocal.pause (core.py lines 238 to 249): _check_if_connected first,
then one GET whose pause parameter is "true" when the argument is true and
"false" otherwise; the response body is discarded.  The Python default of the
argument is True. -/
def SpotifyLocal.pause (self : SpotifyLocal) (pauseArg : Bool) (sub : String)
    (_respond : Request → Json) : CallResult Unit :=
  match self.check_if_connected with
  | Except.error e => { requests := [], result := Except.error e }
  | Except.ok _ =>
      let url := get_url sub "/remote/pause.json"
      let params := [("oauth", self.oauth_token), ("csrf", self.csrf_token),
                     ("pause", if pauseArg then "true" else "false")]
      let req := self.request url params
      { requests := [req], result := Except.ok (self, ()) }

/-- SpotifyLocal.unpause (core.py lines 251 to 253): exactly pause(False). -/
def SpotifyLocal.unpause (self : SpotifyLocal) (sub : String)
    (respond : Request → Json) : CallResult Unit :=
  self.pause false sub respond

/-- SpotifyLocal.playURI (core.py lines 255 to 266): _check_if_connected first,
then one GET with the two tokens plus uri and context both set to the given
uri, returning the decoded body. -/
def SpotifyLocal.playURI (self : SpotifyLocal) (uri : String) (sub : String)
    (respond : Request → Json) : CallResult Json :=
  match self.check_if_connected with
  | Except.error e => { requests := [], result := Except.error e }
  | Except.ok _ =>
      let url := get_url sub "/remote/play.json"
      let params := [("oauth", self.oauth_token), ("csrf", self.csrf_token),
                     ("uri", uri), ("context", uri)]
      let req := self.request url params
      { requests := [req], result := Except.ok (self, respond req) }

/-- The poller state of class UpdateStatus (update_status.py lines 11 to 30):
params, headers, url, wait, the handlers Event, and the _should_run flag
(initialised to True by __init__).  H is the type of callback references. -/
structure UpdateStatus (H : Type) where
  params : List (String × String)
  headers : List (String × String)
  url : String
  wait : Nat
  handlers : Event H
  should_run : Bool

/-- SpotifyLocal.listen_for_events (core.py lines 284 to 298):
_check_if_connected first, then construct an UpdateStatus from the status url,
the token parameters, self._origin as headers, the given handlers and wait, and
start it.  No request is issued by this call itself.  The Python default of
wait is 60. -/
def SpotifyLocal.listen_for_events {H : Type} (self : SpotifyLocal)
    (on_status_change : Event H) (sub : String) (wait : Nat) :
    CallResult (UpdateStatus H) :=
  match self.check_if_connected with
  | Except.error e => { requests := [], result := Except.error e }
  | Except.ok _ =>
      let url := get_url sub "/remote/status.json"
      let params := [("oauth", self.oauth_token), ("csrf", self.csrf_token)]
      { requests := [],
        result := Except.ok (self,
          { params := params, headers := self.origin, url := url, wait := wait,
            handlers := on_status_change, should_run := true }) }

/-- The fixed transition list assigned to the returnon parameter
(update_status.py line 34). -/
def RETURNON_VALUE : String := "login,logout,play,pause,error,ap"

/-- Assignment to a Python dict key, keeping insertion order: replace the value
in place at the position of the key when the key is present, append at the end
otherwise.  The dicts built by the source never hold a duplicate key, so
replacing the first occurrence is exact dict semantics. -/
def setParam : List (String × String) → String → String → List (String × String)
  | [], k, v => [(k, v)]
  | p :: ps, k, v => if p.1 = k then (k, v) :: ps else p :: setParam ps k v

/-- The two dict assignments at the top of each poller iteration
(update_status.py lines 34 and 35): returnon to the fixed transition list and
returnafter to str(self.wait). -/
def updParams (wait : Nat) (ps : List (String × String)) : List (String × String) :=
  setParam (setParam ps "returnon" RETURNON_VALUE) "returnafter" (toString wait)

/-- An observable action of the poller worker: one outbound GET, or one
invocation of a registered callback with a decoded payload. -/
inductive PollEvent (H : Type) where
  | request (r : Request) : PollEvent H
  | dispatch (h : H) (payload : Json) : PollEvent H

/-- How a bounded observation of the run loop ended: the loop exited because
the flag read false (stopped); an exception propagated out of run, carrying its
description (failed); or the observation bound ran out while the loop was still
running (outOfFuel, a modelling artifact standing for a still-running worker). -/
inductive RunOutcome where
  | stopped : RunOutcome
  | failed (e : String) : RunOutcome
  | outOfFuel : RunOutcome
deriving DecidableEq, Repr

/-- The observation of a run of the poller loop: the trace of actions in
order, how it ended, and the final value of self.params. -/
structure RunResult (H : Type) where
  trace : List (PollEvent H)
  outcome : RunOutcome
  finalParams : List (String × String)

/-- UpdateStatus.run (update_status.py lines 32 to 40).
The external world is explicit: flag n is the value of self.should_run read at
the top of the loop for iteration n (the only point where run reads the flag);
resp n is the outcome of the GET of iteration n, Except.error for a transport
failure or a body that fails to decode as JSON, Except.ok for a decoded body.
params is threaded through the iterations because the source mutates the dict
in place; fuel bounds the observation.  Per iteration, in source order: read
the flag; set returnon and returnafter; issue the GET; decode; invoke the
handlers on the decoded payload; loop.  No branch of the body catches an error
and no branch writes the flag. -/
def UpdateStatus.runLoop {H : Type} (u : UpdateStatus H) (flag : Nat → Bool)
    (resp : Nat → Except String Json) (params : List (String × String))
    (n : Nat) : Nat → RunResult H
  | 0 => { trace := [], outcome := RunOutcome.outOfFuel, finalParams := params }
  | fuel + 1 =>
      if flag n then
        let ps1 := setParam params "returnon" RETURNON_VALUE
        let ps2 := setParam ps1 "returnafter" (toString u.wait)
        let req : Request := { url := u.url, params := ps2, headers := u.headers }
        match resp n with
        | Except.error e =>
            { trace := [PollEvent.request req], outcome := RunOutcome.failed e,
              finalParams := ps2 }
        | Except.ok j =>
            let disp := (u.handlers.call j).map (fun hp => PollEvent.dispatch hp.1 hp.2)
            let rest := u.runLoop flag resp ps2 (n + 1) fuel
            { trace := PollEvent.request req :: disp ++ rest.trace,
              outcome := rest.outcome, finalParams := rest.finalParams }
      else { trace := [], outcome := RunOutcome.stopped, finalParams := params }

/-- UpdateStatus.run entered at its first iteration, on self.params. -/
def UpdateStatus.run {H : Type} (u : UpdateStatus H) (flag : Nat → Bool)
    (resp : Nat → Except String Json) (fuel : Nat) : RunResult H :=
  u.runLoop flag resp u.params 0 fuel

/-- The params dict after n poller iterations starting from base. -/
def paramsAt (wait : Nat) (base : List (String × String)) : Nat → List (String × String)
  | 0 => base
  | n + 1 => updParams wait (paramsAt wait base n)

/-- The request issued at iteration i of a run started on params base, per the
source: url and headers are the constructor arguments, params is the dict after
the two assignments of iteration i. -/
def iterRequest {H : Type} (u : UpdateStatus H) (base : List (String × String))
    (i : Nat) : Request :=
  { url := u.url, params := paramsAt u.wait base (i + 1), headers := u.headers }

/-- The trace block of one successful iteration i delivering payload j i: the
GET, then one dispatch per registered callback, in registration order. -/
def iterBlock {H : Type} (u : UpdateStatus H) (base : List (String × String))
    (j : Nat → Json) (i : Nat) : List (PollEvent H) :=
  PollEvent.request (iterRequest u base i)
    :: (u.handlers.call (j i)).map (fun hp => PollEvent.dispatch hp.1 hp.2)

/-- Counts the outbound GET actions of a trace. -/
def requestCount {H : Type} (tr : List (PollEvent H)) : Nat :=
  tr.countP (fun ev => match ev with | PollEvent.request _ => true | _ => false)

/-- After a dict assignment, reading the assigned key yields the assigned
value. -/
theorem lookup_setParam_self (ps : List (String × String)) (k v : String) :
    (setParam ps k v).lookup k = some v := by
  induction ps with
  | nil => simp [setParam, List.lookup]
  | cons p ps ih =>
      by_cases hp : p.1 = k
      · simp [setParam, hp, List.lookup]
      · simp only [setParam, hp, if_false, List.lookup]
        have : (k == p.1) = false := by
          simp [beq_iff_eq]
          exact fun h => hp h.symm
        simp [this, ih]

/-- A dict assignment to one key does not change the value read at a different
key. -/
theorem lookup_setParam_ne (ps : List (String × String)) (k k2 v : String)
    (hne : k ≠ k2) : (setParam ps k2 v).lookup k = ps.lookup k := by
  induction ps with
  | nil =>
      have : (k == k2) = false := by simp [beq_iff_eq]; exact hne
      simp [setParam, List.lookup, this]
  | cons p ps ih =>
      by_cases hp : p.1 = k2
      · have h1 : (k == k2) = false := by simp [beq_iff_eq]; exact hne
        have h2 : (k == p.1) = false := by
          simp [beq_iff_eq]
          exact fun h => hne (h.trans hp)
        simp [setParam, hp, List.lookup, h1, h2]
      · by_cases hk : k = p.1
        · simp [setParam, hp, List.lookup, hk]
        · have h2 : (k == p.1) = false := by simp [beq_iff_eq]; exact hk
          simp [setParam, hp, List.lookup, h2, ih]

/-- The dict after the two per-iteration assignments holds the fixed transition
list under returnon and the string form of wait under returnafter. -/
theorem updParams_lookup (wait : Nat) (ps : List (String × String)) :
    (updParams wait ps).lookup "returnon" = some RETURNON_VALUE
    ∧ (updParams wait ps).lookup "returnafter" = some (toString wait) := by
  constructor
  · unfold updParams
    rw [lookup_setParam_ne _ _ _ _ (by decide)]
    exact lookup_setParam_self _ _ _
  · exact lookup_setParam_self _ _ _

/-- Shifting the base of paramsAt by one application of updParams. -/
theorem paramsAt_shift (wait : Nat) (base : List (String × String)) (i : Nat) :
    paramsAt wait (updParams wait base) i = paramsAt wait base (i + 1) := by
  induction i with
  | zero => rfl
  | succ i ih => simp [paramsAt, ih]

/-- Registering a list of callbacks one by one appends them in registration
order. -/
theorem foldl_add_handlers {H : Type} (hs : List H) (e : Event H) :
    (List.foldl Event.add e hs).handlers = e.handlers ++ hs := by
  induction hs generalizing e with
  | nil => simp
  | cons h hs ih => simp [List.foldl, ih, Event.add]

/-- A trace block shifted by one iteration equals the block over the updated
base params with the payload stream advanced by one. -/
theorem iterBlock_shift {H : Type} (u : UpdateStatus H)
    (base : List (String × String)) (j : Nat → Json) (i : Nat) :
    iterBlock u base j (i + 1)
      = iterBlock u (updParams u.wait base) (fun i2 => j (i2 + 1)) i := by
  simp [iterBlock, iterRequest, paramsAt_shift]

/-- Workhorse: a run of the loop that reads a true flag and receives a decoded
body at each of c consecutive iterations and then reads a false flag produces
exactly the c iteration blocks, in order, and stops. -/
theorem runLoop_ok {H : Type} (u : UpdateStatus H) (flag : Nat → Bool)
    (resp : Nat → Except String Json) (j : Nat → Json) :
    ∀ (c n : Nat) (base : List (String × String)) (fuel : Nat),
      (∀ i, i < c → flag (n + i) = true) →
      (∀ i, i < c → resp (n + i) = Except.ok (j (n + i))) →
      flag (n + c) = false →
      c < fuel →
      u.runLoop flag resp base n fuel =
        { trace := ((List.range c).map (iterBlock u base (fun i2 => j (n + i2)))).flatten,
          outcome := RunOutcome.stopped,
          finalParams := paramsAt u.wait base c } := by
  intro c
  induction c with
  | zero =>
      intro n base fuel _ _ hstop hfuel
      match fuel, hfuel with
      | fuel + 1, _ =>
        have h0 : flag n = false := by simpa using hstop
        simp [UpdateStatus.runLoop, h0, paramsAt]
  | succ c ih =>
      intro n base fuel hflag hresp hstop hfuel
      match fuel, hfuel with
      | fuel + 1, hfuel =>
        have h0 : flag n = true := by simpa using hflag 0 (Nat.succ_pos c)
        have hr0 : resp n = Except.ok (j n) := by simpa using hresp 0 (Nat.succ_pos c)
        have hrest := ih (n + 1) (updParams u.wait base) fuel
          (fun i hi => by
            have := hflag (i + 1) (Nat.succ_lt_succ hi)
            simpa [Nat.add_assoc, Nat.add_comm 1 i] using this)
          (fun i hi => by
            have := hresp (i + 1) (Nat.succ_lt_succ hi)
            simpa [Nat.add_assoc, Nat.add_comm 1 i] using this)
          (by simpa [Nat.add_assoc, Nat.add_comm 1 c] using hstop)
          (Nat.lt_of_succ_lt_succ hfuel)
        simp only [UpdateStatus.runLoop, h0, if_true, hr0]
        rw [show setParam (setParam base "returnon" RETURNON_VALUE) "returnafter"
              (toString u.wait) = updParams u.wait base from rfl]
        rw [hrest]
        have hblocks :
            ((List.range (c + 1)).map (iterBlock u base (fun i2 => j (n + i2)))).flatten
              = iterBlock u base (fun i2 => j (n + i2)) 0
                ++ ((List.range c).map
                    (iterBlock u (updParams u.wait base) (fun i2 => j (n + 1 + i2)))).flatten := by
          rw [List.range_succ_eq_map, List.map_cons, List.flatten_cons, List.map_map]
          congr 1
          congr 1
          apply List.map_congr_left
          intro i _
          show iterBlock u base (fun i2 => j (n + i2)) (i + 1) = _
          rw [iterBlock_shift]
          congr 1
          funext i2
          congr 1
          omega
        rw [hblocks]
        simp [iterBlock, iterRequest, paramsAt, paramsAt_shift, List.cons_append]

/-- Workhorse: a run of the loop whose first c iterations succeed and whose
iteration c sees a transport or decode error produces the c blocks followed by
the failing GET alone, and propagates the error: nothing is dispatched for the
failing iteration, no further GET is issued, and the outcome is failed. -/
theorem runLoop_fail {H : Type} (u : UpdateStatus H) (flag : Nat → Bool)
    (resp : Nat → Except String Json) (j : Nat → Json) (e : String) :
    ∀ (c n : Nat) (base : List (String × String)) (fuel : Nat),
      (∀ i, i < c → flag (n + i) = true) →
      (∀ i, i < c → resp (n + i) = Except.ok (j (n + i))) →
      flag (n + c) = true →
      resp (n + c) = Except.error e →
      c < fuel →
      u.runLoop flag resp base n fuel =
        { trace := ((List.range c).map (iterBlock u base (fun i2 => j (n + i2)))).flatten
            ++ [PollEvent.request (iterRequest u base c)],
          outcome := RunOutcome.failed e,
          finalParams := paramsAt u.wait base (c + 1) } := by
  intro c
  induction c with
  | zero =>
      intro n base fuel _ _ hfl herr hfuel
      match fuel, hfuel with
      | fuel + 1, _ =>
        have h0 : flag n = true := by simpa using hfl
        have hr0 : resp n = Except.error e := by simpa using herr
        simp only [UpdateStatus.runLoop, h0, if_true, hr0]
        simp [iterRequest, paramsAt]
        rfl
  | succ c ih =>
      intro n base fuel hflag hresp hfl herr hfuel
      match fuel, hfuel with
      | fuel + 1, hfuel =>
        have h0 : flag n = true := by simpa using hflag 0 (Nat.succ_pos c)
        have hr0 : resp n = Except.ok (j n) := by simpa using hresp 0 (Nat.succ_pos c)
        have hrest := ih (n + 1) (updParams u.wait base) fuel
          (fun i hi => by
            have := hflag (i + 1) (Nat.succ_lt_succ hi)
            simpa [Nat.add_assoc, Nat.add_comm 1 i] using this)
          (fun i hi => by
            have := hresp (i + 1) (Nat.succ_lt_succ hi)
            simpa [Nat.add_assoc, Nat.add_comm 1 i] using this)
          (by simpa [Nat.add_assoc, Nat.add_comm 1 c] using hfl)
          (by simpa [Nat.add_assoc, Nat.add_comm 1 c] using herr)
          (Nat.lt_of_succ_lt_succ hfuel)
        simp only [UpdateStatus.runLoop, h0, if_true, hr0]
        rw [show setParam (setParam base "returnon" RETURNON_VALUE) "returnafter"
              (toString u.wait) = updParams u.wait base from rfl]
        rw [hrest]
        have hblocks :
            ((List.range (c + 1)).map (iterBlock u base (fun i2 => j (n + i2)))).flatten
              = iterBlock u base (fun i2 => j (n + i2)) 0
                ++ ((List.range c).map
                    (iterBlock u (updParams u.wait base) (fun i2 => j (n + 1 + i2)))).flatten := by
          rw [List.range_succ_eq_map, List.map_cons, List.flatten_cons, List.map_map]
          congr 1
          congr 1
          apply List.map_congr_left
          intro i _
          show iterBlock u base (fun i2 => j (n + i2)) (i + 1) = _
          rw [iterBlock_shift]
          congr 1
          funext i2
          congr 1
          omega
        rw [hblocks]
        have hreq : iterRequest u (updParams u.wait base) c = iterRequest u base (c + 1) := by
          simp [iterRequest, paramsAt_shift]
        rw [hreq, paramsAt_shift]
        simp [iterBlock, iterRequest, paramsAt, List.cons_append, List.append_assoc]

/-- Every GET in a run loop trace carries the headers of the poller state,
whatever the flag and response schedules do. -/
theorem runLoop_request_headers {H : Type} (u : UpdateStatus H) (flag : Nat → Bool)
    (resp : Nat → Except String Json) :
    ∀ (fuel : Nat) (params : List (String × String)) (n : Nat) (r : Request),
      PollEvent.request r ∈ (u.runLoop flag resp params n fuel).trace →
      r.headers = u.headers := by
  intro fuel
  induction fuel with
  | zero => intro params n r hmem; simp [UpdateStatus.runLoop] at hmem
  | succ fuel ih =>
      intro params n r hmem
      by_cases h0 : flag n
      · cases hr : resp n with
        | error e =>
            simp only [UpdateStatus.runLoop, h0, if_true, hr,
              List.mem_singleton, PollEvent.request.injEq] at hmem
            rw [hmem]
        | ok j =>
            simp only [UpdateStatus.runLoop, h0, if_true, hr, List.mem_cons,
              List.mem_append, List.mem_map, PollEvent.request.injEq] at hmem
            rcases hmem with (h | ⟨hp, _, heq⟩) | h
            · rw [h]
            · exact PollEvent.noConfusion heq
            · exact ih _ _ _ h
      · simp [UpdateStatus.runLoop, h0] at hmem

/-- The Bool test selecting the GET actions of a trace. -/
def isRequestEvent {H : Type} : PollEvent H → Bool
  | PollEvent.request _ => true
  | PollEvent.dispatch _ _ => false

/-- One iteration block contains exactly one GET. -/
theorem requestCount_iterBlock {H : Type} (u : UpdateStatus H)
    (base : List (String × String)) (j : Nat → Json) (i : Nat) :
    requestCount (iterBlock u base j i) = 1 := by
  have hdisp : ∀ (l : List (H × Json)),
      (l.map (fun hp => PollEvent.dispatch hp.1 hp.2)).countP
        (fun ev => match ev with | PollEvent.request _ => true | _ => false) = 0 := by
    intro l
    induction l with
    | nil => simp
    | cons p l ih => simp [List.countP_cons, ih]
  simp [requestCount, iterBlock, List.countP_cons, hdisp]

/-- c successful iteration blocks contain exactly c GETs. -/
theorem requestCount_blocks {H : Type} (u : UpdateStatus H)
    (base : List (String × String)) (j : Nat → Json) (c : Nat) :
    requestCount (((List.range c).map (iterBlock u base j)).flatten) = c := by
  induction c with
  | zero => simp [requestCount]
  | succ c ih =>
      rw [List.range_succ, List.map_append, List.flatten_append]
      have h1 := requestCount_iterBlock u base j c
      have happ : requestCount (((List.range c).map (iterBlock u base j)).flatten
            ++ (List.map (iterBlock u base j) [c]).flatten)
          = requestCount (((List.range c).map (iterBlock u base j)).flatten)
            + requestCount ((List.map (iterBlock u base j) [c]).flatten) := by
        simp [requestCount, List.countP_append]
      rw [happ, ih]
      have hsing : (List.map (iterBlock u base j) [c]).flatten = iterBlock u base j c := by
        simp
      rw [hsing, h1]

/-- A concrete connected session state, for witnesses. -/
def connectedState : SpotifyLocal :=
  { origin := DEFAULT_ORIGIN, connected := true,
    oauth_token := "tokA", csrf_token := "tokB" }

/-- Claim C1: every control call that requires a connection (get_current_status,
pause, unpause, playURI, listen_for_events) raises the ConnectionError with the
not-connected message before any request is issued when the connected flag is
false (the request list of the outcome is empty), and does not raise that error
when the connected flag is true. -/
theorem control_calls_require_connection {H : Type} (st : SpotifyLocal)
    (sub uri : String) (respond : Request → Json) (ev : Event H) (wait : Nat)
    (pauseArg : Bool) :
    (st.connected = false →
      st.get_current_status sub respond
        = { requests := [],
            result := Except.error (SpotifyError.connectionError notConnectedMsg) }
      ∧ st.pause pauseArg sub respond
        = { requests := [],
            result := Except.error (SpotifyError.connectionError notConnectedMsg) }
      ∧ st.unpause sub respond
        = { requests := [],
            result := Except.error (SpotifyError.connectionError notConnectedMsg) }
      ∧ st.playURI uri sub respond
        = { requests := [],
            result := Except.error (SpotifyError.connectionError notConnectedMsg) }
      ∧ st.listen_for_events ev sub wait
        = { requests := [],
            result := Except.error (SpotifyError.connectionError notConnectedMsg) })
    ∧ (st.connected = true →
      (∀ m, (st.get_current_status sub respond).result
          ≠ Except.error (SpotifyError.connectionError m))
      ∧ (∀ m, (st.pause pauseArg sub respond).result
          ≠ Except.error (SpotifyError.connectionError m))
      ∧ (∀ m, (st.unpause sub respond).result
          ≠ Except.error (SpotifyError.connectionError m))
      ∧ (∀ m, (st.playURI uri sub respond).result
          ≠ Except.error (SpotifyError.connectionError m))
      ∧ (∀ m, (st.listen_for_events ev sub wait).result
          ≠ Except.error (SpotifyError.connectionError m))) := by
  constructor
  · intro h
    refine ⟨?_, ?_, ?_, ?_, ?_⟩ <;>
      simp [SpotifyLocal.get_current_status, SpotifyLocal.pause, SpotifyLocal.unpause,
        SpotifyLocal.playURI, SpotifyLocal.listen_for_events,
        SpotifyLocal.check_if_connected, h]
  · intro h
    refine ⟨?_, ?_, ?_, ?_, ?_⟩ <;> intro m <;>
      simp [SpotifyLocal.get_current_status, SpotifyLocal.pause, SpotifyLocal.unpause,
        SpotifyLocal.playURI, SpotifyLocal.listen_for_events,
        SpotifyLocal.check_if_connected, h]

/-- Witness for the claim C1 theorem: both hypotheses discharged at concrete
session states, a fresh client for the disconnected case and connectedState for
the connected case. -/
theorem control_calls_require_connection_witness :
    SpotifyLocal.init.get_current_status "abcdefghij" (fun _ => Json.null)
      = { requests := [],
          result := Except.error (SpotifyError.connectionError notConnectedMsg) }
    ∧ (connectedState.get_current_status "abcdefghij" (fun _ => Json.null)).result
      ≠ Except.error (SpotifyError.connectionError notConnectedMsg) :=
  ⟨((@control_calls_require_connection Nat SpotifyLocal.init "abcdefghij" "u"
      (fun _ => Json.null) (Event.empty Nat) 60 true).1 rfl).1,
   ((@control_calls_require_connection Nat connectedState "abcdefghij" "u"
      (fun _ => Json.null) (Event.empty Nat) 60 true).2 rfl).1 notConnectedMsg⟩

/-- Claim C8: pause(true) issues one GET whose pause parameter is the string
"true"; pause(false) issues one GET whose pause parameter is "false";
unpause() is exactly pause(false); and both operations raise the ConnectionError
when the connected flag is false. -/
theorem pause_sends_pause_param (st : SpotifyLocal) (sub : String)
    (respond : Request → Json) :
    (st.connected = true →
      st.pause true sub respond
        = { requests := [{ url := get_url sub "/remote/pause.json",
                           params := [("oauth", st.oauth_token), ("csrf", st.csrf_token),
                                      ("pause", "true")],
                           headers := st.origin }],
            result := Except.ok (st, ()) }
      ∧ st.pause false sub respond
        = { requests := [{ url := get_url sub "/remote/pause.json",
                           params := [("oauth", st.oauth_token), ("csrf", st.csrf_token),
                                      ("pause", "false")],
                           headers := st.origin }],
            result := Except.ok (st, ()) })
    ∧ st.unpause sub respond = st.pause false sub respond
    ∧ (st.connected = false →
      st.pause true sub respond
        = { requests := [],
            result := Except.error (SpotifyError.connectionError notConnectedMsg) }
      ∧ st.pause false sub respond
        = { requests := [],
            result := Except.error (SpotifyError.connectionError notConnectedMsg) }
      ∧ st.unpause sub respond
        = { requests := [],
            result := Except.error (SpotifyError.connectionError notConnectedMsg) }) := by
  refine ⟨?_, rfl, ?_⟩
  · intro h
    constructor <;>
      simp [SpotifyLocal.pause, SpotifyLocal.request, SpotifyLocal.check_if_connected, h]
  · intro h
    refine ⟨?_, ?_, ?_⟩ <;>
      simp [SpotifyLocal.pause, SpotifyLocal.unpause, SpotifyLocal.check_if_connected, h]

/-- Witness for the claim C8 theorem: hypotheses discharged at connectedState
and at the fresh disconnected client. -/
theorem pause_sends_pause_param_witness :
    connectedState.pause true "abcdefghij" (fun _ => Json.null)
      = { requests := [{ url := get_url "abcdefghij" "/remote/pause.json",
                         params := [("oauth", "tokA"), ("csrf", "tokB"), ("pause", "true")],
                         headers := DEFAULT_ORIGIN }],
          result := Except.ok (connectedState, ()) }
    ∧ SpotifyLocal.init.pause true "abcdefghij" (fun _ => Json.null)
      = { requests := [],
          result := Except.error (SpotifyError.connectionError notConnectedMsg) } :=
  ⟨((pause_sends_pause_param connectedState "abcdefghij" (fun _ => Json.null)).1 rfl).1,
   ((pause_sends_pause_param SpotifyLocal.init "abcdefghij" (fun _ => Json.null)).2.2 rfl).1⟩

/-- Claim C9: the version property issues its GET and returns the decoded body
with no connectivity check: for every session state, connected or not, it never
raises the ConnectionError. -/
theorem version_skips_connection_check (st : SpotifyLocal) (sub : String)
    (respond : Request → Json) :
    st.version sub respond
      = { requests := [{ url := get_url sub "/service/version.json",
                         params := [("service", "remote")], headers := st.origin }],
          result := Except.ok (st, respond
            { url := get_url sub "/service/version.json",
              params := [("service", "remote")], headers := st.origin }) }
    ∧ (∀ m, (st.version sub respond).result
        ≠ Except.error (SpotifyError.connectionError m)) := by
  constructor
  · rfl
  · intro m
    simp [SpotifyLocal.version, SpotifyLocal.request]

/-- Claim C10: every connected control call leaves the session state unchanged:
when connected is true, the post-state returned by get_current_status, pause,
unpause and playURI is the whole pre-state record (so origin, connected,
oauth_token and csrf_token are all identical), and the playURI request carries
the context parameter equal to the given uri. -/
theorem control_calls_preserve_session_state (st : SpotifyLocal) (sub uri : String)
    (respond : Request → Json) (pauseArg : Bool) (h : st.connected = true) :
    (st.get_current_status sub respond).result
      = Except.ok (st, respond { url := get_url sub "/remote/status.json",
                                 params := [("oauth", st.oauth_token), ("csrf", st.csrf_token)],
                                 headers := st.origin })
    ∧ (st.pause pauseArg sub respond).result = Except.ok (st, ())
    ∧ (st.unpause sub respond).result = Except.ok (st, ())
    ∧ (st.playURI uri sub respond).result
      = Except.ok (st, respond { url := get_url sub "/remote/play.json",
                                 params := [("oauth", st.oauth_token), ("csrf", st.csrf_token),
                                            ("uri", uri), ("context", uri)],
                                 headers := st.origin })
    ∧ (st.playURI uri sub respond).requests.all
        (fun r => r.params.lookup "context" = some uri) = true := by
  refine ⟨?_, ?_, ?_, ?_, ?_⟩ <;>
    simp [SpotifyLocal.get_current_status, SpotifyLocal.pause, SpotifyLocal.unpause,
      SpotifyLocal.playURI, SpotifyLocal.request, SpotifyLocal.check_if_connected,
      List.lookup, h]

/-- Witness for the claim C10 theorem: hypothesis discharged at the concrete
connected state. -/
theorem control_calls_preserve_session_state_witness :
    (connectedState.get_current_status "abcdefghij" (fun _ => Json.null)).result
      = Except.ok (connectedState, Json.null)
    ∧ (connectedState.playURI "spotify:track:x" "abcdefghij"
        (fun _ => Json.null)).requests.all
        (fun r => r.params.lookup "context" = some "spotify:track:x") = true :=
  ⟨(control_calls_preserve_session_state connectedState "abcdefghij" "spotify:track:x"
      (fun _ => Json.null) true rfl).1,
   (control_calls_preserve_session_state connectedState "abcdefghij" "spotify:track:x"
      (fun _ => Json.null) true rfl).2.2.2.2⟩

/-- An environment whose token endpoints serve an empty OAuth token and a
non-empty CSRF token: the single object carries both fields, so it answers both
handshake requests. -/
def respondEmptyOAuth : Request → Json :=
  fun _ => Json.obj [("t", Json.str ""), ("token", Json.str "abc")]

/-- Counterexample to claim C4 as stated: at this concrete input connect()
succeeds (no error is raised) and yet the stored oauth_token is the empty
string, so after a successful connect() the tokens are not always non-empty
strings.  The code stores whatever string the endpoint returns, with no
emptiness check. -/
theorem connect_nonempty_counterexample :
    (SpotifyLocal.init.connect "abcdefghij" respondEmptyOAuth).err = none
    ∧ (SpotifyLocal.init.connect "abcdefghij" respondEmptyOAuth).state.connected = true
    ∧ (SpotifyLocal.init.connect "abcdefghij" respondEmptyOAuth).state.oauth_token = "" := by
  refine ⟨rfl, rfl, rfl⟩

/-- Claim C4 as amended: connect() first issues the GET to the origin token
endpoint, then the GET to the simplecsrf endpoint, and on success stores
exactly the strings those two responses carried under "t" and "token"
respectively, and only then sets connected to true; connected is never true
after connect unless both fetches succeeded, and each stored token is non-empty
whenever the corresponding endpoint response is non-empty. -/
theorem connect_populates_tokens (st : SpotifyLocal) (sub : String)
    (respond : Request → Json) :
    ((st.connect sub respond).err = none →
      (respond st.oauth_token_request).getStr "t"
          = some (st.connect sub respond).state.oauth_token
      ∧ (respond { url := get_url sub "/simplecsrf/token.json", params := [],
                   headers := st.origin }).getStr "token"
          = some (st.connect sub respond).state.csrf_token
      ∧ (st.connect sub respond).state.connected = true
      ∧ (st.connect sub respond).requests
          = [st.oauth_token_request,
             { url := get_url sub "/simplecsrf/token.json", params := [],
               headers := st.origin }])
    ∧ (st.connected = false → (st.connect sub respond).err ≠ none →
        (st.connect sub respond).state.connected = false) := by
  constructor
  · intro hok
    cases h1 : (respond st.oauth_token_request).getStr "t" with
    | none =>
        exfalso
        simp [SpotifyLocal.connect, h1] at hok
    | some t =>
        cases h2 : (respond { url := get_url sub "/simplecsrf/token.json",
                              params := [],
                              headers := st.origin }).getStr "token" with
        | none =>
            exfalso
            simp [SpotifyLocal.connect, SpotifyLocal.request, h1, h2] at hok
        | some c =>
            refine ⟨?_, ?_, ?_, ?_⟩ <;>
              simp [SpotifyLocal.connect, SpotifyLocal.request, h1, h2]
  · intro hdisc herr
    cases h1 : (respond st.oauth_token_request).getStr "t" with
    | none => simp [SpotifyLocal.connect, h1, hdisc]
    | some t =>
        cases h2 : (respond { url := get_url sub "/simplecsrf/token.json",
                              params := [],
                              headers := st.origin }).getStr "token" with
        | none => simp [SpotifyLocal.connect, SpotifyLocal.request, h1, h2, hdisc]
        | some c =>
            exfalso
            apply herr
            simp [SpotifyLocal.connect, SpotifyLocal.request, h1, h2]

/-- An environment serving non-empty tokens for both handshake requests. -/
def respondTokens : Request → Json :=
  fun _ => Json.obj [("t", Json.str "tok1"), ("token", Json.str "tok2")]

/-- Witness for the amended claim C4 theorem: both implications discharged at a
concrete state and environment, one succeeding handshake and one failing
handshake. -/
theorem connect_populates_tokens_witness :
    (SpotifyLocal.init.connect "abcdefghij" respondTokens).state.connected = true
    ∧ (SpotifyLocal.init.connect "abcdefghij" (fun _ => Json.null)).state.connected
        = false :=
  ⟨((connect_populates_tokens SpotifyLocal.init "abcdefghij" respondTokens).1
      rfl).2.2.1,
   (connect_populates_tokens SpotifyLocal.init "abcdefghij" (fun _ => Json.null)).2
      rfl (fun h => Option.noConfusion h)⟩

/-- Counterexample to claim C6 as stated: on a concrete successful handshake,
the first outbound GET (the OAuth token request, issued directly on the session
with no headers argument at core.py line 191) carries no Origin header, while
the second (the CSRF request, issued through _request) does.  So not every
outbound GET carries the fixed Origin header. -/
theorem origin_header_counterexample :
    (SpotifyLocal.init.connect "abcdefghij" respondTokens).requests.map
        (fun r => r.headers.lookup "Origin")
      = [none, some "https://open.spotify.com"] := by rfl

/-- Claim C6 as amended: every outbound GET except the OAuth token handshake
request carries the header Origin: https://open.spotify.com — the CSRF
handshake request, the control call requests (version, get_current_status,
pause, playURI) and every poller status request carry it, while the OAuth token
request, issued on the bare session, carries no headers at all. -/
theorem origin_headers_amended {H : Type} (st : SpotifyLocal) (sub uri : String)
    (respond : Request → Json) (pauseArg : Bool) (ev : Event H) (wait : Nat)
    (horigin : st.origin = DEFAULT_ORIGIN) :
    st.oauth_token_request.headers.lookup "Origin" = none
    ∧ (∀ r ∈ (st.connect sub respond).requests.drop 1,
        r.headers.lookup "Origin" = some "https://open.spotify.com")
    ∧ (∀ r ∈ (st.version sub respond).requests,
        r.headers.lookup "Origin" = some "https://open.spotify.com")
    ∧ (∀ r ∈ (st.get_current_status sub respond).requests,
        r.headers.lookup "Origin" = some "https://open.spotify.com")
    ∧ (∀ r ∈ (st.pause pauseArg sub respond).requests,
        r.headers.lookup "Origin" = some "https://open.spotify.com")
    ∧ (∀ r ∈ (st.playURI uri sub respond).requests,
        r.headers.lookup "Origin" = some "https://open.spotify.com")
    ∧ (∀ (st2 : SpotifyLocal) (u : UpdateStatus H),
        (st.listen_for_events ev sub wait).result = Except.ok (st2, u) →
        ∀ (flag : Nat → Bool) (resp : Nat → Except String Json) (fuel : Nat)
          (r : Request),
          PollEvent.request r ∈ (u.run flag resp fuel).trace →
          r.headers.lookup "Origin" = some "https://open.spotify.com") := by
  have hlook : DEFAULT_ORIGIN.lookup "Origin" = some "https://open.spotify.com" := rfl
  refine ⟨rfl, ?_, ?_, ?_, ?_, ?_, ?_⟩
  · intro r hmem
    cases h1 : (respond st.oauth_token_request).getStr "t" with
    | none => simp [SpotifyLocal.connect, h1] at hmem
    | some t =>
        cases h2 : (respond { url := get_url sub "/simplecsrf/token.json",
                              params := [],
                              headers := st.origin }).getStr "token" with
        | none =>
            simp [SpotifyLocal.connect, SpotifyLocal.request, h1, h2] at hmem
            rw [hmem, horigin]
            exact hlook
        | some c =>
            simp [SpotifyLocal.connect, SpotifyLocal.request, h1, h2] at hmem
            rw [hmem, horigin]
            exact hlook
  · intro r hmem
    simp [SpotifyLocal.version, SpotifyLocal.request] at hmem
    rw [hmem, horigin]
    exact hlook
  · intro r hmem
    by_cases hc : st.connected
    · simp [SpotifyLocal.get_current_status, SpotifyLocal.request,
        SpotifyLocal.check_if_connected, hc] at hmem
      rw [hmem, horigin]
      exact hlook
    · simp [SpotifyLocal.get_current_status, SpotifyLocal.check_if_connected, hc] at hmem
  · intro r hmem
    by_cases hc : st.connected
    · simp [SpotifyLocal.pause, SpotifyLocal.request,
        SpotifyLocal.check_if_connected, hc] at hmem
      rw [hmem, horigin]
      exact hlook
    · simp [SpotifyLocal.pause, SpotifyLocal.check_if_connected, hc] at hmem
  · intro r hmem
    by_cases hc : st.connected
    · simp [SpotifyLocal.playURI, SpotifyLocal.request,
        SpotifyLocal.check_if_connected, hc] at hmem
      rw [hmem, horigin]
      exact hlook
    · simp [SpotifyLocal.playURI, SpotifyLocal.check_if_connected, hc] at hmem
  · intro st2 u hok flag resp2 fuel r hmem
    by_cases hc : st.connected
    · have hmem2 : PollEvent.request r ∈ (u.runLoop flag resp2 u.params 0 fuel).trace := by
        simpa [UpdateStatus.run] using hmem
      have hhead := runLoop_request_headers u flag resp2 fuel u.params 0 r hmem2
      simp [SpotifyLocal.listen_for_events, SpotifyLocal.check_if_connected, hc] at hok
      obtain ⟨-, hu⟩ := hok
      rw [hhead, ← hu, horigin]
      exact hlook
    · simp [SpotifyLocal.listen_for_events, SpotifyLocal.check_if_connected, hc] at hok

/-- Witness for the amended claim C6 theorem: the hypothesis discharged at the
concrete connected state; the OAuth token request of that state carries no
Origin header while its pause request carries it. -/
theorem origin_headers_amended_witness :
    connectedState.oauth_token_request.headers.lookup "Origin" = none
    ∧ ({ url := get_url "abcdefghij" "/remote/pause.json",
         params := [("oauth", "tokA"), ("csrf", "tokB"), ("pause", "true")],
         headers := DEFAULT_ORIGIN } : Request).headers.lookup "Origin"
        = some "https://open.spotify.com" :=
  ⟨(@origin_headers_amended Nat connectedState "abcdefghij" "u" respondTokens true
      (Event.empty Nat) 60 rfl).1,
   (@origin_headers_amended Nat connectedState "abcdefghij" "u" respondTokens true
      (Event.empty Nat) 60 rfl).2.2.2.2.1
     { url := get_url "abcdefghij" "/remote/pause.json",
       params := [("oauth", "tokA"), ("csrf", "tokB"), ("pause", "true")],
       headers := DEFAULT_ORIGIN }
     (show _ ∈ [({ url := get_url "abcdefghij" "/remote/pause.json",
                   params := [("oauth", "tokA"), ("csrf", "tokB"), ("pause", "true")],
                   headers := DEFAULT_ORIGIN } : Request)] from List.mem_singleton.mpr rfl)⟩

/-- The payload stream entering a run at iteration 0 is the payload stream
itself. -/
theorem payload_shift_zero (j : Nat → Json) : (fun i2 => j (0 + i2)) = j := by
  funext i2
  rw [Nat.zero_add]

/-- Claim C2: while the flag reads true, every iteration of the run loop, in
order, sets returnon to the fixed transition list and returnafter to the string
form of wait, issues one GET against the status url with these parameters and
headers, decodes the body, invokes the registered handlers on the decoded
payload, and then the flag is read again, the loop terminating exactly at the
first false read. -/
theorem poller_iteration_structure {H : Type} (u : UpdateStatus H)
    (flag : Nat → Bool) (resp : Nat → Except String Json) (j : Nat → Json)
    (c fuel : Nat)
    (hflag : ∀ i, i < c → flag i = true)
    (hresp : ∀ i, i < c → resp i = Except.ok (j i))
    (hstop : flag c = false) (hfuel : c < fuel) :
    u.run flag resp fuel
      = { trace := ((List.range c).map (iterBlock u u.params j)).flatten,
          outcome := RunOutcome.stopped,
          finalParams := paramsAt u.wait u.params c }
    ∧ (∀ i, iterBlock u u.params j i
        = PollEvent.request { url := u.url, params := paramsAt u.wait u.params (i + 1),
                              headers := u.headers }
            :: (u.handlers.call (j i)).map (fun hp => PollEvent.dispatch hp.1 hp.2))
    ∧ (∀ i, (iterRequest u u.params i).params.lookup "returnon" = some RETURNON_VALUE
        ∧ (iterRequest u u.params i).params.lookup "returnafter"
            = some (toString u.wait)) := by
  refine ⟨?_, fun i => rfl, fun i => ?_⟩
  · have hrun := runLoop_ok u flag resp j c 0 u.params fuel
      (fun i hi => by simpa using hflag i hi)
      (fun i hi => by simpa using hresp i hi)
      (by simpa using hstop) hfuel
    rw [payload_shift_zero] at hrun
    exact hrun
  · exact ⟨(updParams_lookup u.wait (paramsAt u.wait u.params i)).1,
      (updParams_lookup u.wait (paramsAt u.wait u.params i)).2⟩

/-- A concrete poller state with two registered callbacks, for witnesses. -/
def pollerFixture : UpdateStatus Nat :=
  { params := [("oauth", "tokA"), ("csrf", "tokB")],
    headers := DEFAULT_ORIGIN,
    url := get_url "abcdefghij" "/remote/status.json",
    wait := 60,
    handlers := List.foldl Event.add (Event.empty Nat) [0, 1],
    should_run := true }

/-- A flag schedule reading true at the first two checks and false after. -/
def flagTwo : Nat → Bool := fun k => decide (k < 2)

/-- A flag schedule reading true at the first check only. -/
def flagOne : Nat → Bool := fun k => decide (k < 1)

/-- A response schedule always delivering the JSON null document. -/
def respNull : Nat → Except String Json := fun _ => Except.ok Json.null

/-- Witness for the claim C2 theorem: the trace of a two-iteration run of the
concrete poller, hypotheses discharged at the concrete schedules. -/
theorem poller_iteration_structure_witness :
    pollerFixture.run flagTwo respNull 3
      = { trace := ((List.range 2).map
            (iterBlock pollerFixture pollerFixture.params (fun _ => Json.null))).flatten,
          outcome := RunOutcome.stopped,
          finalParams := paramsAt pollerFixture.wait pollerFixture.params 2 }
    ∧ (iterRequest pollerFixture pollerFixture.params 0).params.lookup "returnon"
        = some RETURNON_VALUE :=
  ⟨(poller_iteration_structure pollerFixture flagTwo respNull (fun _ => Json.null) 2 3
      (fun i hi => decide_eq_true hi) (fun _ _ => rfl) rfl (by decide)).1,
   ((poller_iteration_structure pollerFixture flagTwo respNull (fun _ => Json.null) 2 3
      (fun i hi => decide_eq_true hi) (fun _ _ => rfl) rfl (by decide)).2.2 0).1⟩

/-- Claim C3: registering N callbacks and triggering one poller iteration with
decoded payload j0 invokes each of the N callbacks exactly once, in
registration order, each receiving the identical payload j0: the trace of the
one-iteration run is the GET followed by exactly one dispatch per registered
callback, in list order, all carrying j0. -/
theorem poller_invokes_each_callback_once {H : Type} (hs : List H)
    (u : UpdateStatus H) (flag : Nat → Bool) (resp : Nat → Except String Json)
    (j0 : Json) (fuel : Nat)
    (hh : u.handlers = List.foldl Event.add (Event.empty H) hs)
    (hflag0 : flag 0 = true) (hflag1 : flag 1 = false)
    (hresp0 : resp 0 = Except.ok j0) (hfuel : 1 < fuel) :
    (u.run flag resp fuel).trace
      = PollEvent.request (iterRequest u u.params 0)
          :: hs.map (fun h => PollEvent.dispatch h j0)
    ∧ u.handlers.call j0 = hs.map (fun h => (h, j0)) := by
  have hhs : u.handlers.handlers = hs := by
    rw [hh, foldl_add_handlers]
    rfl
  have hcall : u.handlers.call j0 = hs.map (fun h => (h, j0)) := by
    rw [Event.call, hhs]
  refine ⟨?_, hcall⟩
  have hrun := runLoop_ok u flag resp (fun _ => j0) 1 0 u.params fuel
    (fun i hi => by
      have : i = 0 := by omega
      simpa [this] using hflag0)
    (fun i hi => by
      have : i = 0 := by omega
      simpa [this] using hresp0)
    (by simpa using hflag1) hfuel
  rw [UpdateStatus.run, hrun]
  simp [List.range_succ, iterBlock, hcall, List.map_map]

/-- Witness for the claim C3 theorem: one iteration of the concrete poller with
its two registered callbacks dispatches to callback 0 then callback 1, each
with the null payload. -/
theorem poller_invokes_each_callback_once_witness :
    (pollerFixture.run flagOne respNull 2).trace
      = PollEvent.request (iterRequest pollerFixture pollerFixture.params 0)
          :: [0, 1].map (fun h => PollEvent.dispatch h Json.null) :=
  (poller_invokes_each_callback_once [0, 1] pollerFixture flagOne respNull Json.null 2
    rfl rfl rfl rfl (by decide)).1

/-- Claim C5: the run loop reads the flag only at the top of an iteration, so a
flag that turns false during iteration n (true at the read starting iteration
n, false at the next read) does not terminate the worker before that iteration
completes: the run still stops via the flag, having issued exactly n + 1 GETs,
and every registered callback has received the payload of iteration n. -/
theorem poller_stop_flag_cooperative {H : Type} (u : UpdateStatus H)
    (flag : Nat → Bool) (resp : Nat → Except String Json) (j : Nat → Json)
    (n fuel : Nat)
    (hflag : ∀ i, i ≤ n → flag i = true) (hflag1 : flag (n + 1) = false)
    (hresp : ∀ i, i ≤ n → resp i = Except.ok (j i)) (hfuel : n + 1 < fuel) :
    (u.run flag resp fuel).outcome = RunOutcome.stopped
    ∧ requestCount (u.run flag resp fuel).trace = n + 1
    ∧ (∀ h ∈ u.handlers.handlers,
        PollEvent.dispatch h (j n) ∈ (u.run flag resp fuel).trace) := by
  have hrun := runLoop_ok u flag resp j (n + 1) 0 u.params fuel
    (fun i hi => by simpa using hflag i (Nat.lt_succ_iff.mp hi))
    (fun i hi => by simpa using hresp i (Nat.lt_succ_iff.mp hi))
    (by simpa using hflag1) hfuel
  rw [payload_shift_zero] at hrun
  have hrun2 : u.run flag resp fuel
      = { trace := ((List.range (n + 1)).map (iterBlock u u.params j)).flatten,
          outcome := RunOutcome.stopped,
          finalParams := paramsAt u.wait u.params (n + 1) } := hrun
  refine ⟨?_, ?_, ?_⟩
  · rw [hrun2]
  · rw [hrun2]
    exact requestCount_blocks u u.params j (n + 1)
  · intro h hmem
    rw [hrun2]
    apply List.mem_flatten.mpr
    refine ⟨iterBlock u u.params j n, ?_, ?_⟩
    · exact List.mem_map_of_mem _ (List.mem_range.mpr (Nat.lt_succ_self n))
    · apply List.mem_cons_of_mem
      apply List.mem_map.mpr
      exact ⟨(h, j n), List.mem_map_of_mem _ hmem, rfl⟩

/-- Witness for the claim C5 theorem: the flag of the concrete poller turns
false after the read that starts iteration 1; the run stops, issues exactly two
GETs, and callback 0 receives the payload of iteration 1. -/
theorem poller_stop_flag_cooperative_witness :
    (pollerFixture.run flagTwo respNull 4).outcome = RunOutcome.stopped
    ∧ requestCount (pollerFixture.run flagTwo respNull 4).trace = 2
    ∧ PollEvent.dispatch 0 Json.null ∈ (pollerFixture.run flagTwo respNull 4).trace :=
  ⟨(poller_stop_flag_cooperative pollerFixture flagTwo respNull (fun _ => Json.null) 1 4
      (fun i hi => decide_eq_true (by omega)) rfl (fun _ _ => rfl) (by decide)).1,
   (poller_stop_flag_cooperative pollerFixture flagTwo respNull (fun _ => Json.null) 1 4
      (fun i hi => decide_eq_true (by omega)) rfl (fun _ _ => rfl) (by decide)).2.1,
   (poller_stop_flag_cooperative pollerFixture flagTwo respNull (fun _ => Json.null) 1 4
      (fun i hi => decide_eq_true (by omega)) rfl (fun _ _ => rfl) (by decide)).2.2
      0 (by decide)⟩

/-- Claim C7: a transport error or malformed body at iteration n of the run
loop is caught nowhere: the run ends with the failed outcome carrying that
error, the failing GET is the last action of the trace (nothing is dispatched
for iteration n and no further GET is issued, so exactly n + 1 GETs in all, no
retry), and the termination is not a flag-read termination — the loop never
writes the flag, which is an input of the model. -/
theorem poller_error_terminates {H : Type} (u : UpdateStatus H)
    (flag : Nat → Bool) (resp : Nat → Except String Json) (j : Nat → Json)
    (e : String) (n fuel : Nat)
    (hflag : ∀ i, i ≤ n → flag i = true)
    (hresp : ∀ i, i < n → resp i = Except.ok (j i))
    (herr : resp n = Except.error e) (hfuel : n < fuel) :
    u.run flag resp fuel
      = { trace := ((List.range n).map (iterBlock u u.params j)).flatten
            ++ [PollEvent.request (iterRequest u u.params n)],
          outcome := RunOutcome.failed e,
          finalParams := paramsAt u.wait u.params (n + 1) }
    ∧ requestCount (u.run flag resp fuel).trace = n + 1
    ∧ (u.run flag resp fuel).outcome ≠ RunOutcome.stopped := by
  have hrun := runLoop_fail u flag resp j e n 0 u.params fuel
    (fun i hi => by simpa using hflag i (Nat.le_of_lt hi))
    (fun i hi => by simpa using hresp i hi)
    (by simpa using hflag n (Nat.le_refl n))
    (by simpa using herr) hfuel
  rw [payload_shift_zero] at hrun
  have hrun2 : u.run flag resp fuel
      = { trace := ((List.range n).map (iterBlock u u.params j)).flatten
            ++ [PollEvent.request (iterRequest u u.params n)],
          outcome := RunOutcome.failed e,
          finalParams := paramsAt u.wait u.params (n + 1) } := hrun
  refine ⟨hrun2, ?_, ?_⟩
  · rw [hrun2]
    have h1 := requestCount_blocks u u.params j n
    simp only [requestCount, List.countP_append] at h1 ⊢
    simp [h1]
  · rw [hrun2]
    intro hcontra
    exact RunOutcome.noConfusion hcontra

/-- A response schedule whose iteration 0 succeeds and whose iteration 1 fails
with a transport error. -/
def respErrAtOne : Nat → Except String Json :=
  fun k => if k = 0 then Except.ok Json.null else Except.error "boom"

/-- Witness for the claim C7 theorem: the concrete poller fails at iteration 1
with the transport error, after exactly two GETs, and does not stop via the
flag. -/
theorem poller_error_terminates_witness :
    pollerFixture.run flagTwo respErrAtOne 3
      = { trace := ((List.range 1).map
            (iterBlock pollerFixture pollerFixture.params (fun _ => Json.null))).flatten
            ++ [PollEvent.request (iterRequest pollerFixture pollerFixture.params 1)],
          outcome := RunOutcome.failed "boom",
          finalParams := paramsAt pollerFixture.wait pollerFixture.params 2 }
    ∧ requestCount (pollerFixture.run flagTwo respErrAtOne 3).trace = 2 :=
  ⟨(poller_error_terminates pollerFixture flagTwo respErrAtOne (fun _ => Json.null)
      "boom" 1 3 (fun i hi => decide_eq_true (by omega))
      (fun i hi => by
        have : i = 0 := by omega
        simp [this, respErrAtOne])
      rfl (by decide)).1,
   (poller_error_terminates pollerFixture flagTwo respErrAtOne (fun _ => Json.null)
      "boom" 1 3 (fun i hi => decide_eq_true (by omega))
      (fun i hi => by
        have : i = 0 := by omega
        simp [this, respErrAtOne])
      rfl (by decide)).2.1⟩

/-- Witness for the claim C9 theorem: the version call on the fresh,
disconnected client returns the decoded body and does not raise the
ConnectionError. -/
theorem version_skips_connection_check_witness :
    SpotifyLocal.init.version "abcdefghij" (fun _ => Json.null)
      = { requests := [{ url := get_url "abcdefghij" "/service/version.json",
                         params := [("service", "remote")], headers := DEFAULT_ORIGIN }],
          result := Except.ok (SpotifyLocal.init, Json.null) }
    ∧ (SpotifyLocal.init.version "abcdefghij" (fun _ => Json.null)).result
      ≠ Except.error (SpotifyError.connectionError notConnectedMsg) :=
  ⟨(version_skips_connection_check SpotifyLocal.init "abcdefghij" (fun _ => Json.null)).1,
   (version_skips_connection_check SpotifyLocal.init "abcdefghij"
      (fun _ => Json.null)).2 notConnectedMsg⟩
